import Mathlib

/-!
Verification of the signal-scoring core of `metal_analyzer.py`:
indicator computation (`calculate_indicators`), trend-shape analysis
(`analyze_trend`) and rule-based signal fusion (`get_signal_strength`).

Prices and indicator values are modelled as rationals.  Dictionaries of
indicator values are modelled as association lists with the Python
`dict.get(key, default)` access pattern.  The external `talib` library
calls are modelled as opaque inputs (a record of the arrays the library
returns), since only their lengths and last elements are read by the code.
-/

set_option autoImplicit false

namespace MetalAnalyzer

/-- A per-classifier vote; the source uses the strings
"خرید" (buy), "فروش" (sell), "خنثی" (neutral). -/
inductive Vote where
  | buy
  | sell
  | neutral
deriving DecidableEq, Repr

/-- Overall market direction; the source uses the strings
"صعودی" (bullish), "نزولی" (bearish), "رنج" (ranging), "نامشخص" (unknown). -/
inductive Direction where
  | bullish
  | bearish
  | ranging
  | unknown
deriving DecidableEq, Repr

/-- Recommended action; the source uses the strings
"خرید" (buy), "فروش" (sell), "انتظار" (wait), "نامشخص" (unknown). -/
inductive Action where
  | buy
  | sell
  | wait
  | unknown
deriving DecidableEq, Repr

/-- A Python dict from indicator names to scalar values, as an association
list (first binding wins, like a dict with unique keys). -/
abbrev IndicatorSet := List (String × ℚ)

/-- Python `d.get(k, dflt)`. -/
def dictGet (d : IndicatorSet) (k : String) (dflt : ℚ) : ℚ :=
  match d.lookup k with
  | some v => v
  | none => dflt

/-- The 4-tuple returned by `get_signal_strength`. -/
structure FusedSignal where
  market_direction : Direction
  confidence : Nat
  action : Action
  signals_detail : List (String × Vote)
deriving DecidableEq, Repr

/-- RSI classifier (lines 204-211): buy below 30, sell above 70. -/
def rsiVote (rsi : ℚ) : Vote :=
  if rsi < 30 then .buy
  else if rsi > 70 then .sell
  else .neutral

/-- Moving-average classifier (lines 214-221). -/
def maVote (sma_20 sma_50 current_price : ℚ) : Vote :=
  if sma_20 > sma_50 ∧ current_price > sma_20 then .buy
  else if sma_20 < sma_50 ∧ current_price < sma_20 then .sell
  else .neutral

/-- MACD-histogram classifier (lines 224-231). -/
def macdVote (macd_hist : ℚ) : Vote :=
  if macd_hist > 0 then .buy
  else if macd_hist < 0 then .sell
  else .neutral

/-- Bollinger-position classifier (lines 234-241). -/
def bbVote (bb_position : ℚ) : Vote :=
  if bb_position < 0.2 then .buy
  else if bb_position > 0.8 then .sell
  else .neutral

/-- Trend-strength classifier (lines 244-251). -/
def trendVote (trend_strength : ℚ) : Vote :=
  if trend_strength > 0.1 then .buy
  else if trend_strength < -0.1 then .sell
  else .neutral

/-- The aggregation part of `get_signal_strength` (lines 253-285), as a
function of the five classifier votes: confidence from the count of
non-neutral votes, direction/action from the buy/sell vote counts, and
the per-indicator breakdown. -/
def fuseVotes (rsi_signal ma_signal macd_signal bb_signal trend_signal : Vote) :
    FusedSignal :=
  let votes := [rsi_signal, ma_signal, macd_signal, bb_signal, trend_signal]
  let total_indicators := 5
  let confirmation_count := votes.countP (fun v => v != Vote.neutral)
  let confidence : Nat :=
    if confirmation_count = total_indicators then 80
    else if confirmation_count = total_indicators - 1 then 70
    else if confirmation_count = total_indicators - 2 then 60
    else 50
  let buy_signals := votes.countP (fun v => v == Vote.buy)
  let sell_signals := votes.countP (fun v => v == Vote.sell)
  let signals_detail :=
    [("RSI", rsi_signal), ("MA", ma_signal), ("MACD", macd_signal),
     ("Bollinger", bb_signal), ("Trend", trend_signal)]
  if buy_signals > sell_signals then
    ⟨Direction.bullish, confidence, Action.buy, signals_detail⟩
  else if sell_signals > buy_signals then
    ⟨Direction.bearish, confidence, Action.sell, signals_detail⟩
  else
    ⟨Direction.ranging, confidence, Action.wait, signals_detail⟩

/-- The five classifier votes read off the two input dicts with the
source's defaults (lines 195-201): rsi→50, sma_20/sma_50/current_price→0,
macd_hist→0, bb_position→0.5, trend_strength→0. -/
def classifierVotes (indicators trend_analysis : IndicatorSet) : List Vote :=
  [rsiVote (dictGet indicators "rsi" 50),
   maVote (dictGet indicators "sma_20" 0) (dictGet indicators "sma_50" 0)
     (dictGet indicators "current_price" 0),
   macdVote (dictGet indicators "macd_hist" 0),
   bbVote (dictGet indicators "bb_position" 0.5),
   trendVote (dictGet trend_analysis "trend_strength" 0)]

/-- The body of the `try` block of `get_signal_strength` (lines 192-285). -/
def fusionBody (indicators trend_analysis : IndicatorSet) : FusedSignal :=
  fuseVotes
    (rsiVote (dictGet indicators "rsi" 50))
    (maVote (dictGet indicators "sma_20" 0) (dictGet indicators "sma_50" 0)
      (dictGet indicators "current_price" 0))
    (macdVote (dictGet indicators "macd_hist" 0))
    (bbVote (dictGet indicators "bb_position" 0.5))
    (trendVote (dictGet trend_analysis "trend_strength" 0))

/-- The sentinel returned by the `except` branch of `get_signal_strength`
(line 288): direction "نامشخص" (unknown), confidence 0, action unknown,
empty breakdown. -/
def fusionSentinel : FusedSignal :=
  ⟨Direction.unknown, 0, Action.unknown, []⟩

/-- The `try ... except` structure of `get_signal_strength`: a normal
result is passed through, a raised exception is caught and replaced by
`fusionSentinel`. -/
def fuseExcept (r : Except String FusedSignal) : FusedSignal :=
  match r with
  | Except.ok s => s
  | Except.error _ => fusionSentinel

/-- `get_signal_strength(indicators, trend_analysis)` (lines 189-288).
In the shallow embedding the try-body is a total pure function, so the
normal path always applies. -/
def get_signal_strength (indicators trend_analysis : IndicatorSet) : FusedSignal :=
  fuseExcept (Except.ok (fusionBody indicators trend_analysis))

/-- One OHLC bar (only the fields the core reads). -/
structure PriceBar where
  high : ℚ
  low : ℚ
  close : ℚ
deriving DecidableEq, Repr

/-- A chronologically ordered series of bars. -/
abbrev PriceSeries := List PriceBar

/-- The arrays returned by the external `talib` calls in
`calculate_indicators` (RSI, SMA, MACD, BBANDS); the code reads only
their lengths and last elements, so they are modelled as inputs. -/
structure TalibOutputs where
  rsi : List ℚ
  sma_20 : List ℚ
  sma_50 : List ℚ
  macd : List ℚ
  macd_signal : List ℚ
  macd_hist : List ℚ
  bb_upper : List ℚ
  bb_middle : List ℚ
  bb_lower : List ℚ
deriving DecidableEq, Repr

/-- Python `xs[-1] if len(xs) > 0 else dflt`. -/
def lastOr (xs : List ℚ) (dflt : ℚ) : ℚ :=
  match xs.getLast? with
  | some v => v
  | none => dflt

/-- `calculate_indicators(data)` (lines 103-146), with the talib results
passed in as `lib`.  Returns `{}` for fewer than 50 bars; otherwise fills
the indicator dict, defaulting each scalar when the library array is
empty, and guards the Bollinger block on non-empty band arrays: the
`else` branch sets `bb_position` to 0.5, the `then` branch computes the
unguarded division `(close[-1] - bb_lower[-1]) / (bb_upper[-1] - bb_lower[-1])`. -/
def calculate_indicators (data : PriceSeries) (lib : TalibOutputs) : IndicatorSet :=
  if data.length < 50 then []
  else
    let close_prices := data.map PriceBar.close
    let base : IndicatorSet :=
      [("rsi", lastOr lib.rsi 50),
       ("sma_20", lastOr lib.sma_20 0),
       ("sma_50", lastOr lib.sma_50 0),
       ("macd", lastOr lib.macd 0),
       ("macd_signal", lastOr lib.macd_signal 0),
       ("macd_hist", lastOr lib.macd_hist 0)]
    if 0 < lib.bb_upper.length ∧ 0 < lib.bb_lower.length then
      base ++
        [("bb_upper", lastOr lib.bb_upper 0),
         ("bb_middle", lastOr lib.bb_middle 0),
         ("bb_lower", lastOr lib.bb_lower 0),
         ("bb_position",
           (lastOr close_prices 0 - lastOr lib.bb_lower 0) /
             (lastOr lib.bb_upper 0 - lastOr lib.bb_lower 0))]
    else base ++ [("bb_position", 0.5)]

/-- Number of strictly increasing adjacent pairs in a list (the
`highs[i] > highs[i-1]` branch of the loop in lines 165-174). -/
def countAdjLt : List ℚ → Nat
  | a :: b :: rest => (if a < b then 1 else 0) + countAdjLt (b :: rest)
  | _ => 0

/-- Number of strictly decreasing adjacent pairs in a list (the
`elif highs[i] < highs[i-1]` branch; ties hit neither branch). -/
def countAdjGt : List ℚ → Nat
  | a :: b :: rest => (if b < a then 1 else 0) + countAdjGt (b :: rest)
  | _ => 0

/-- `analyze_trend(data)` (lines 148-187).  Returns `{}` for fewer than
20 bars; otherwise counts the four kinds of strict adjacent transitions
over `data.tail(16)` and derives `trend_strength`. -/
def analyze_trend (data : PriceSeries) : IndicatorSet :=
  if data.length < 20 then []
  else
    let recent_data := data.drop (data.length - 16)
    let highs := recent_data.map PriceBar.high
    let lows := recent_data.map PriceBar.low
    let higher_highs := countAdjLt highs
    let lower_highs := countAdjGt highs
    let higher_lows := countAdjLt lows
    let lower_lows := countAdjGt lows
    [("higher_highs", (higher_highs : ℚ)),
     ("lower_highs", (lower_highs : ℚ)),
     ("higher_lows", (higher_lows : ℚ)),
     ("lower_lows", (lower_lows : ℚ)),
     ("trend_strength",
       ((higher_highs : ℚ) + (higher_lows : ℚ)
         - (lower_highs : ℚ) - (lower_lows : ℚ)) / 30)]

/-- Count of classifiers voting non-neutral (the source's
`confirmation_count`, incremented once in every non-neutral branch). -/
def nonNeutralCount (indicators trend_analysis : IndicatorSet) : Nat :=
  ((classifierVotes indicators trend_analysis).filter
    (fun v => v != Vote.neutral)).length

/-- Count of classifiers voting buy (the source's `buy_signals`). -/
def buyCount (indicators trend_analysis : IndicatorSet) : Nat :=
  (classifierVotes indicators trend_analysis).countP (fun v => v == Vote.buy)

/-- Count of classifiers voting sell (the source's `sell_signals`). -/
def sellCount (indicators trend_analysis : IndicatorSet) : Nat :=
  (classifierVotes indicators trend_analysis).countP (fun v => v == Vote.sell)

attribute [local semireducible] Rat.ofScientific Rat.mul Rat.inv Rat.add Rat.sub

theorem ifVote_buy_iff (c1 c2 : Prop) [Decidable c1] [Decidable c2] :
    ((if c1 then Vote.buy else if c2 then Vote.sell else Vote.neutral) = Vote.buy) ↔ c1 := by
  split_ifs with h1 h2 <;> simp_all

theorem ifVote_sell_iff (c1 c2 : Prop) [Decidable c1] [Decidable c2] (hdisj : c2 → ¬c1) :
    ((if c1 then Vote.buy else if c2 then Vote.sell else Vote.neutral) = Vote.sell) ↔ c2 := by
  split_ifs with h1 h2
  · constructor
    · intro h; cases h
    · intro hc2; exact absurd h1 (hdisj hc2)
  · simp [h2]
  · simp [h2]

theorem ifVote_neutral_iff (c1 c2 : Prop) [Decidable c1] [Decidable c2] :
    ((if c1 then Vote.buy else if c2 then Vote.sell else Vote.neutral) = Vote.neutral) ↔
      ¬c1 ∧ ¬c2 := by
  split_ifs with h1 h2 <;> simp_all

theorem fuseVotes_confidence (v1 v2 v3 v4 v5 : Vote) :
    (fuseVotes v1 v2 v3 v4 v5).confidence =
      (if ([v1, v2, v3, v4, v5].filter (fun v => v != Vote.neutral)).length = 5 then 80
       else if ([v1, v2, v3, v4, v5].filter (fun v => v != Vote.neutral)).length = 4 then 70
       else if ([v1, v2, v3, v4, v5].filter (fun v => v != Vote.neutral)).length = 3 then 60
       else 50) := by
  cases v1 <;> cases v2 <;> cases v3 <;> cases v4 <;> cases v5 <;> rfl

theorem fuseVotes_direction_action (v1 v2 v3 v4 v5 : Vote) :
    ((fuseVotes v1 v2 v3 v4 v5).market_direction, (fuseVotes v1 v2 v3 v4 v5).action) =
      (if [v1, v2, v3, v4, v5].countP (fun v => v == Vote.sell) <
            [v1, v2, v3, v4, v5].countP (fun v => v == Vote.buy) then
          (Direction.bullish, Action.buy)
        else if [v1, v2, v3, v4, v5].countP (fun v => v == Vote.buy) <
            [v1, v2, v3, v4, v5].countP (fun v => v == Vote.sell) then
          (Direction.bearish, Action.sell)
        else (Direction.ranging, Action.wait)) := by
  cases v1 <;> cases v2 <;> cases v3 <;> cases v4 <;> cases v5 <;> rfl

theorem fuseVotes_signals_detail (v1 v2 v3 v4 v5 : Vote) :
    (fuseVotes v1 v2 v3 v4 v5).signals_detail =
      [("RSI", v1), ("MA", v2), ("MACD", v3), ("Bollinger", v4), ("Trend", v5)] := by
  cases v1 <;> cases v2 <;> cases v3 <;> cases v4 <;> cases v5 <;> rfl

/-- Claim C1: for every IndicatorSet and TrendShape input the confidence is
determined solely by the number of non-neutral classifier votes, regardless of
their directions: two inputs with the same non-neutral count get the same
confidence, and the count maps as 5→80, 4→70, 3→60, ≤2→50. -/
theorem C1_confidence_counts_nonneutral_votes (ind tr ind2 tr2 : IndicatorSet)
    (h : nonNeutralCount ind tr = nonNeutralCount ind2 tr2) :
    (get_signal_strength ind tr).confidence = (get_signal_strength ind2 tr2).confidence ∧
    (get_signal_strength ind tr).confidence =
      (if nonNeutralCount ind tr = 5 then 80
       else if nonNeutralCount ind tr = 4 then 70
       else if nonNeutralCount ind tr = 3 then 60
       else 50) := by
  have key : ∀ (a b : IndicatorSet), (get_signal_strength a b).confidence =
      (if nonNeutralCount a b = 5 then 80
       else if nonNeutralCount a b = 4 then 70
       else if nonNeutralCount a b = 3 then 60
       else 50) := by
    intro a b
    exact fuseVotes_confidence _ _ _ _ _
  refine ⟨?_, key ind tr⟩
  rw [key, key, h]

/-- Witness for C1 at two concrete inputs: three buy votes and three sell
votes give the same non-neutral count 3, hence the same confidence. -/
theorem C1_confidence_counts_nonneutral_votes_witness :
    nonNeutralCount [("rsi", (25 : ℚ)), ("macd_hist", 1), ("bb_position", 1/10)] [] =
      nonNeutralCount [("rsi", (75 : ℚ)), ("macd_hist", -1), ("bb_position", 9/10)] [] ∧
    (get_signal_strength [("rsi", (25 : ℚ)), ("macd_hist", 1), ("bb_position", 1/10)] []).confidence =
      (get_signal_strength [("rsi", (75 : ℚ)), ("macd_hist", -1), ("bb_position", 9/10)] []).confidence :=
  ⟨by decide,
   (C1_confidence_counts_nonneutral_votes
     [("rsi", (25 : ℚ)), ("macd_hist", 1), ("bb_position", 1/10)] []
     [("rsi", (75 : ℚ)), ("macd_hist", -1), ("bb_position", 9/10)] [] (by decide)).1⟩

/-- Claim C2: for every input the engine compares the buy-vote and sell-vote
counts of the five classifiers: more buys gives bullish/buy, more sells gives
bearish/sell, a tie (including 0 = 0) gives ranging/wait. -/
theorem C2_direction_action_from_vote_counts (ind tr : IndicatorSet) :
    ((get_signal_strength ind tr).market_direction, (get_signal_strength ind tr).action) =
      (if sellCount ind tr < buyCount ind tr then (Direction.bullish, Action.buy)
       else if buyCount ind tr < sellCount ind tr then (Direction.bearish, Action.sell)
       else (Direction.ranging, Action.wait)) :=
  fuseVotes_direction_action _ _ _ _ _

/-- Claim C3: each of the five classifiers votes exactly per its thresholds,
and votes neutral exactly when neither the buy nor the sell condition holds. -/
theorem C3_classifier_thresholds (r s20 s50 cp mh bp ts : ℚ) :
    (rsiVote r = Vote.buy ↔ r < 30) ∧
    (rsiVote r = Vote.sell ↔ r > 70) ∧
    (rsiVote r = Vote.neutral ↔ ¬r < 30 ∧ ¬r > 70) ∧
    (maVote s20 s50 cp = Vote.buy ↔ s20 > s50 ∧ cp > s20) ∧
    (maVote s20 s50 cp = Vote.sell ↔ s20 < s50 ∧ cp < s20) ∧
    (maVote s20 s50 cp = Vote.neutral ↔
      ¬(s20 > s50 ∧ cp > s20) ∧ ¬(s20 < s50 ∧ cp < s20)) ∧
    (macdVote mh = Vote.buy ↔ mh > 0) ∧
    (macdVote mh = Vote.sell ↔ mh < 0) ∧
    (macdVote mh = Vote.neutral ↔ ¬mh > 0 ∧ ¬mh < 0) ∧
    (bbVote bp = Vote.buy ↔ bp < 0.2) ∧
    (bbVote bp = Vote.sell ↔ bp > 0.8) ∧
    (bbVote bp = Vote.neutral ↔ ¬bp < 0.2 ∧ ¬bp > 0.8) ∧
    (trendVote ts = Vote.buy ↔ ts > 0.1) ∧
    (trendVote ts = Vote.sell ↔ ts < -0.1) ∧
    (trendVote ts = Vote.neutral ↔ ¬ts > 0.1 ∧ ¬ts < -0.1) := by
  refine ⟨ifVote_buy_iff _ _, ifVote_sell_iff _ _ (by intro h2 h1; linarith),
    ifVote_neutral_iff _ _,
    ifVote_buy_iff _ _, ifVote_sell_iff _ _ (by intro h2 h1; rcases h1 with ⟨a, _⟩; rcases h2 with ⟨b, _⟩; linarith),
    ifVote_neutral_iff _ _,
    ifVote_buy_iff _ _, ifVote_sell_iff _ _ (by intro h2 h1; linarith),
    ifVote_neutral_iff _ _,
    ifVote_buy_iff _ _, ifVote_sell_iff _ _ (by intro h2 h1; norm_num at h1 h2; linarith),
    ifVote_neutral_iff _ _,
    ifVote_buy_iff _ _, ifVote_sell_iff _ _ (by intro h2 h1; norm_num at h1 h2; linarith),
    ifVote_neutral_iff _ _⟩

/-- Claim C9: a raised exception during fusion is caught and replaced by the
sentinel FusedSignal: direction unknown, confidence 0, action unknown, empty
breakdown; the handler never re-raises. -/
theorem C9_fusion_exception_yields_sentinel (e : String) :
    fuseExcept (Except.error e) = fusionSentinel ∧
    fusionSentinel.market_direction = Direction.unknown ∧
    fusionSentinel.confidence = 0 ∧
    fusionSentinel.action = Action.unknown ∧
    fusionSentinel.signals_detail = [] :=
  ⟨rfl, rfl, rfl, rfl, rfl⟩

/-- Claim C4 counterexample: an input in which the `sma_50` key is absent but
whose present keys make the moving-average classifier vote buy, so an absent
key does not always resolve to the reading rule's neutral branch. -/
theorem C4_counterexample :
    ([("current_price", (112 : ℚ)), ("sma_20", 100)] : IndicatorSet).lookup "sma_50" = none ∧
    classifierVotes [("current_price", (112 : ℚ)), ("sma_20", 100)] [] =
      [Vote.neutral, Vote.buy, Vote.neutral, Vote.neutral, Vote.neutral] := by
  decide

/-- Claim C4 (amended): an absent key is read as its documented default, and a
classifier all of whose inputs are absent votes neutral; in particular fully
empty inputs give five neutral votes and a ranging/wait signal with
confidence 50. -/
theorem C4_amended_fully_absent_rules_vote_neutral (ind tr : IndicatorSet) :
    (ind.lookup "rsi" = none → rsiVote (dictGet ind "rsi" 50) = Vote.neutral) ∧
    (ind.lookup "sma_20" = none → ind.lookup "sma_50" = none →
      ind.lookup "current_price" = none →
      maVote (dictGet ind "sma_20" 0) (dictGet ind "sma_50" 0)
        (dictGet ind "current_price" 0) = Vote.neutral) ∧
    (ind.lookup "macd_hist" = none → macdVote (dictGet ind "macd_hist" 0) = Vote.neutral) ∧
    (ind.lookup "bb_position" = none → bbVote (dictGet ind "bb_position" 0.5) = Vote.neutral) ∧
    (tr.lookup "trend_strength" = none →
      trendVote (dictGet tr "trend_strength" 0) = Vote.neutral) ∧
    get_signal_strength [] [] =
      ⟨Direction.ranging, 50, Action.wait,
       [("RSI", Vote.neutral), ("MA", Vote.neutral), ("MACD", Vote.neutral),
        ("Bollinger", Vote.neutral), ("Trend", Vote.neutral)]⟩ := by
  refine ⟨?_, ?_, ?_, ?_, ?_, by decide⟩
  · intro h; simp only [dictGet, h]; decide
  · intro h1 h2 h3; simp only [dictGet, h1, h2, h3]; decide
  · intro h; simp only [dictGet, h]; decide
  · intro h; simp only [dictGet, h]; decide
  · intro h; simp only [dictGet, h]; decide

/-- Witness for the amended C4 at the fully empty inputs. -/
theorem C4_amended_fully_absent_rules_vote_neutral_witness :
    rsiVote (dictGet [] "rsi" 50) = Vote.neutral ∧
    maVote (dictGet [] "sma_20" 0) (dictGet [] "sma_50" 0)
      (dictGet [] "current_price" 0) = Vote.neutral ∧
    macdVote (dictGet [] "macd_hist" 0) = Vote.neutral ∧
    bbVote (dictGet [] "bb_position" 0.5) = Vote.neutral ∧
    trendVote (dictGet [] "trend_strength" 0) = Vote.neutral :=
  ⟨(C4_amended_fully_absent_rules_vote_neutral [] []).1 rfl,
   (C4_amended_fully_absent_rules_vote_neutral [] []).2.1 rfl rfl rfl,
   (C4_amended_fully_absent_rules_vote_neutral [] []).2.2.1 rfl,
   (C4_amended_fully_absent_rules_vote_neutral [] []).2.2.2.1 rfl,
   (C4_amended_fully_absent_rules_vote_neutral [] []).2.2.2.2.1 rfl⟩

/-- Claim C5: when the `sma_50` key is absent it is read as 0, and if
additionally sma_20 > 0 and current_price > sma_20 hold, the moving-average
classifier votes buy in the fused breakdown. -/
theorem C5_missing_sma50_ma_votes_buy (ind tr : IndicatorSet)
    (habs : ind.lookup "sma_50" = none)
    (hpos : 0 < dictGet ind "sma_20" 0)
    (hcp : dictGet ind "sma_20" 0 < dictGet ind "current_price" 0) :
    dictGet ind "sma_50" 0 = 0 ∧
    (get_signal_strength ind tr).signals_detail.lookup "MA" = some Vote.buy := by
  have h0 : dictGet ind "sma_50" 0 = 0 := by simp [dictGet, habs]
  have hma : maVote (dictGet ind "sma_20" 0) (dictGet ind "sma_50" 0)
      (dictGet ind "current_price" 0) = Vote.buy := by
    rw [h0]
    unfold maVote
    rw [if_pos ⟨hpos, hcp⟩]
  refine ⟨h0, ?_⟩
  show (fuseVotes (rsiVote (dictGet ind "rsi" 50))
      (maVote (dictGet ind "sma_20" 0) (dictGet ind "sma_50" 0)
        (dictGet ind "current_price" 0))
      (macdVote (dictGet ind "macd_hist" 0))
      (bbVote (dictGet ind "bb_position" 0.5))
      (trendVote (dictGet tr "trend_strength" 0))).signals_detail.lookup "MA" =
    some Vote.buy
  rw [fuseVotes_signals_detail, hma]
  rfl

/-- Witness for C5 at a concrete input with `sma_50` absent. -/
theorem C5_missing_sma50_ma_votes_buy_witness :
    dictGet [("sma_20", (100 : ℚ)), ("current_price", 112)] "sma_50" 0 = 0 ∧
    (get_signal_strength [("sma_20", (100 : ℚ)), ("current_price", 112)] []).signals_detail.lookup
      "MA" = some Vote.buy :=
  C5_missing_sma50_ma_votes_buy [("sma_20", (100 : ℚ)), ("current_price", 112)] []
    (by decide) (by decide) (by decide)

/-- A 50-bar flat series whose Bollinger bands are degenerate: every close is
12 and the band arrays returned by the library are the constant 12, so the
band width is zero. -/
def flatBars : PriceSeries := List.replicate 50 ⟨12, 12, 12⟩

/-- Library outputs consistent with `flatBars`: constant bands of width zero. -/
def flatLib : TalibOutputs := ⟨[50], [12], [12], [0], [0], [0], [12], [12], [12]⟩

/-- Claim C6 counterexample: on a 50-bar series whose band arrays are
non-empty with zero width (`bb_upper[-1] = bb_lower[-1]`), the computed
`bb_position` is not 0.5 — the code's guard tests band availability, not band
width, so the degenerate division is not replaced by the 0.5 default. -/
theorem C6_counterexample :
    50 ≤ flatBars.length ∧
    lastOr flatLib.bb_upper 0 = lastOr flatLib.bb_lower 0 ∧
    (calculate_indicators flatBars flatLib).lookup "bb_position" ≠ some (0.5 : ℚ) := by
  decide

/-- Claim C6 (amended): for a series of at least 50 bars, `bb_position` is
0.5 exactly when a band array is empty (bands unavailable); when both band
arrays are non-empty it is the unguarded quotient
`(close[-1] - bb_lower[-1]) / (bb_upper[-1] - bb_lower[-1])`, with no special
case for zero band width. -/
theorem C6_amended_bb_guard_is_availability (data : PriceSeries) (lib : TalibOutputs)
    (h : 50 ≤ data.length) :
    (calculate_indicators data lib).lookup "bb_position" =
      some (if 0 < lib.bb_upper.length ∧ 0 < lib.bb_lower.length then
          (lastOr (data.map PriceBar.close) 0 - lastOr lib.bb_lower 0) /
            (lastOr lib.bb_upper 0 - lastOr lib.bb_lower 0)
        else 0.5) := by
  unfold calculate_indicators
  rw [if_neg (by omega)]
  split_ifs with hbb <;> simp [List.lookup]

/-- Witness for the amended C6: with empty band arrays the 0.5 default is
returned, and on the degenerate flat input the quotient is returned instead. -/
theorem C6_amended_bb_guard_is_availability_witness :
    (calculate_indicators flatBars ⟨[], [], [], [], [], [], [], [], []⟩).lookup "bb_position" =
      some (0.5 : ℚ) := by
  rw [C6_amended_bb_guard_is_availability flatBars ⟨[], [], [], [], [], [], [], [], []⟩
    (by decide)]
  norm_num

/-- Adjacent strict-rise and strict-fall counts together never exceed the
number of adjacent pairs (ties land in neither count). -/
theorem countAdj_le_pairs (xs : List ℚ) :
    countAdjLt xs + countAdjGt xs ≤ xs.length - 1 := by
  induction xs with
  | nil => simp [countAdjLt, countAdjGt]
  | cons a t ih =>
    cases t with
    | nil => simp [countAdjLt, countAdjGt]
    | cons b r =>
      have h1 : countAdjLt (a :: b :: r) = (if a < b then 1 else 0) + countAdjLt (b :: r) := rfl
      have h2 : countAdjGt (a :: b :: r) = (if b < a then 1 else 0) + countAdjGt (b :: r) := rfl
      rw [h1, h2]
      simp only [List.length_cons] at ih ⊢
      rcases lt_trichotomy a b with h | h | h
      · rw [if_pos h, if_neg (not_lt.mpr h.le)]
        omega
      · rw [if_neg (by simp [h]), if_neg (by simp [h])]
        omega
      · rw [if_neg (not_lt.mpr h.le), if_pos h]
        omega

/-- Claim C7: for at least 20 bars, `analyze_trend` publishes the four strict
adjacent-transition counts of the most recent 16 bars, the derived
`trend_strength` equals (higher_highs + higher_lows − lower_highs −
lower_lows) / 30, the paired counts never exceed the 15 transitions, and the
strength always lies in [-1, 1]. -/
theorem C7_trend_strength_in_unit_interval (data : PriceSeries) (h : 20 ≤ data.length) :
    let recent := data.drop (data.length - 16)
    let hh := countAdjLt (recent.map PriceBar.high)
    let lh := countAdjGt (recent.map PriceBar.high)
    let hl := countAdjLt (recent.map PriceBar.low)
    let ll := countAdjGt (recent.map PriceBar.low)
    (analyze_trend data).lookup "higher_highs" = some (hh : ℚ) ∧
    (analyze_trend data).lookup "lower_highs" = some (lh : ℚ) ∧
    (analyze_trend data).lookup "higher_lows" = some (hl : ℚ) ∧
    (analyze_trend data).lookup "lower_lows" = some (ll : ℚ) ∧
    (analyze_trend data).lookup "trend_strength" =
      some (((hh : ℚ) + (hl : ℚ) - (lh : ℚ) - (ll : ℚ)) / 30) ∧
    hh + lh ≤ 15 ∧ hl + ll ≤ 15 ∧
    -1 ≤ ((hh : ℚ) + (hl : ℚ) - (lh : ℚ) - (ll : ℚ)) / 30 ∧
    ((hh : ℚ) + (hl : ℚ) - (lh : ℚ) - (ll : ℚ)) / 30 ≤ 1 := by
  intro recent hh lh hl ll
  have hlen : recent.length = 16 := by
    simp only [recent, List.length_drop]
    omega
  have hbh : hh + lh ≤ 15 := by
    have := countAdj_le_pairs (recent.map PriceBar.high)
    rw [List.length_map, hlen] at this
    omega
  have hbl : hl + ll ≤ 15 := by
    have := countAdj_le_pairs (recent.map PriceBar.low)
    rw [List.length_map, hlen] at this
    omega
  have hnum_le : ((hh : ℚ) + (hl : ℚ) - (lh : ℚ) - (ll : ℚ)) ≤ 30 := by
    have h1 : (hh : ℚ) ≤ 15 := by
      have : hh ≤ 15 := by omega
      exact_mod_cast this
    have h2 : (hl : ℚ) ≤ 15 := by
      have : hl ≤ 15 := by omega
      exact_mod_cast this
    have h3 : (0 : ℚ) ≤ (lh : ℚ) := by positivity
    have h4 : (0 : ℚ) ≤ (ll : ℚ) := by positivity
    linarith
  have hnum_ge : (-30 : ℚ) ≤ ((hh : ℚ) + (hl : ℚ) - (lh : ℚ) - (ll : ℚ)) := by
    have h1 : (lh : ℚ) ≤ 15 := by
      have : lh ≤ 15 := by omega
      exact_mod_cast this
    have h2 : (ll : ℚ) ≤ 15 := by
      have : ll ≤ 15 := by omega
      exact_mod_cast this
    have h3 : (0 : ℚ) ≤ (hh : ℚ) := by positivity
    have h4 : (0 : ℚ) ≤ (hl : ℚ) := by positivity
    linarith
  have hlookups : analyze_trend data =
      [("higher_highs", (hh : ℚ)), ("lower_highs", (lh : ℚ)),
       ("higher_lows", (hl : ℚ)), ("lower_lows", (ll : ℚ)),
       ("trend_strength", ((hh : ℚ) + (hl : ℚ) - (lh : ℚ) - (ll : ℚ)) / 30)] := by
    unfold analyze_trend
    rw [if_neg (by omega)]
  rw [hlookups]
  refine ⟨rfl, rfl, rfl, rfl, rfl, hbh, hbl, ?_, ?_⟩
  · rw [le_div_iff₀ (by norm_num : (0 : ℚ) < 30)]
    linarith
  · rw [div_le_one (by norm_num : (0 : ℚ) < 30)]
    exact hnum_le

/-- Witness for C7 at a flat 20-bar series: all counts are 0 and
trend_strength is 0. -/
theorem C7_trend_strength_in_unit_interval_witness :
    let recent := (List.replicate 20 (⟨1, 1, 1⟩ : PriceBar)).drop
      ((List.replicate 20 (⟨1, 1, 1⟩ : PriceBar)).length - 16)
    let hh := countAdjLt (recent.map PriceBar.high)
    let lh := countAdjGt (recent.map PriceBar.high)
    let hl := countAdjLt (recent.map PriceBar.low)
    let ll := countAdjGt (recent.map PriceBar.low)
    (analyze_trend (List.replicate 20 ⟨1, 1, 1⟩)).lookup "higher_highs" = some (hh : ℚ) ∧
    (analyze_trend (List.replicate 20 ⟨1, 1, 1⟩)).lookup "lower_highs" = some (lh : ℚ) ∧
    (analyze_trend (List.replicate 20 ⟨1, 1, 1⟩)).lookup "higher_lows" = some (hl : ℚ) ∧
    (analyze_trend (List.replicate 20 ⟨1, 1, 1⟩)).lookup "lower_lows" = some (ll : ℚ) ∧
    (analyze_trend (List.replicate 20 ⟨1, 1, 1⟩)).lookup "trend_strength" =
      some (((hh : ℚ) + (hl : ℚ) - (lh : ℚ) - (ll : ℚ)) / 30) ∧
    hh + lh ≤ 15 ∧ hl + ll ≤ 15 ∧
    -1 ≤ ((hh : ℚ) + (hl : ℚ) - (lh : ℚ) - (ll : ℚ)) / 30 ∧
    ((hh : ℚ) + (hl : ℚ) - (lh : ℚ) - (ll : ℚ)) / 30 ≤ 1 :=
  C7_trend_strength_in_unit_interval (List.replicate 20 ⟨1, 1, 1⟩) (by decide)

/-- Claim C8: fewer than 50 bars make `calculate_indicators` return the empty
dict, and fewer than 20 bars make `analyze_trend` return the empty dict; both
are total functions of their inputs, so no error is raised. -/
theorem C8_insufficient_data_returns_empty (data : PriceSeries) (lib : TalibOutputs) :
    (data.length < 50 → calculate_indicators data lib = []) ∧
    (data.length < 20 → analyze_trend data = []) := by
  constructor
  · intro h
    unfold calculate_indicators
    rw [if_pos h]
  · intro h
    unfold analyze_trend
    rw [if_pos h]

/-- Witness for C8 at the empty series. -/
theorem C8_insufficient_data_returns_empty_witness :
    calculate_indicators [] ⟨[], [], [], [], [], [], [], [], []⟩ = [] ∧
    analyze_trend [] = [] :=
  ⟨(C8_insufficient_data_returns_empty [] ⟨[], [], [], [], [], [], [], [], []⟩).1 (by decide),
   (C8_insufficient_data_returns_empty [] ⟨[], [], [], [], [], [], [], [], []⟩).2 (by decide)⟩

/-- Claim C10: a non-empty result of `calculate_indicators` always contains
the keys rsi, sma_20, sma_50, macd, macd_signal, macd_hist and bb_position,
and never contains current_price (only the caller injects it afterwards). -/
theorem C10_nonempty_indicators_complete (data : PriceSeries) (lib : TalibOutputs)
    (h : calculate_indicators data lib ≠ []) :
    ((calculate_indicators data lib).lookup "rsi").isSome ∧
    ((calculate_indicators data lib).lookup "sma_20").isSome ∧
    ((calculate_indicators data lib).lookup "sma_50").isSome ∧
    ((calculate_indicators data lib).lookup "macd").isSome ∧
    ((calculate_indicators data lib).lookup "macd_signal").isSome ∧
    ((calculate_indicators data lib).lookup "macd_hist").isSome ∧
    ((calculate_indicators data lib).lookup "bb_position").isSome ∧
    (calculate_indicators data lib).lookup "current_price" = none := by
  by_cases h50 : data.length < 50
  · exact absurd (by unfold calculate_indicators; rw [if_pos h50]) h
  · unfold calculate_indicators
    rw [if_neg h50]
    split_ifs with hbb <;> simp [List.lookup]

/-- Witness for C10 at a concrete 50-bar series. -/
theorem C10_nonempty_indicators_complete_witness :
    ((calculate_indicators flatBars flatLib).lookup "rsi").isSome ∧
    ((calculate_indicators flatBars flatLib).lookup "sma_20").isSome ∧
    ((calculate_indicators flatBars flatLib).lookup "sma_50").isSome ∧
    ((calculate_indicators flatBars flatLib).lookup "macd").isSome ∧
    ((calculate_indicators flatBars flatLib).lookup "macd_signal").isSome ∧
    ((calculate_indicators flatBars flatLib).lookup "macd_hist").isSome ∧
    ((calculate_indicators flatBars flatLib).lookup "bb_position").isSome ∧
    (calculate_indicators flatBars flatLib).lookup "current_price" = none :=
  C10_nonempty_indicators_complete flatBars flatLib (by decide)

end MetalAnalyzer
